import Mathlib

/-!
Verification of the `edns-resolver` web server stub (`webserver.py`).

The program is a tiny HTTP test double: a `PatternMatchingServer` handler
class with a constant dictionary `URL_PATTERNS` mapping exact request paths
to category payloads, a constant `DEFAULT_RESPONSE`, and a `do_GET` method
that always answers status 200 with two fixed headers and the JSON
serialization of the matched (or default) payload, appending one log line
per request.

We embed the data model and the GET handler shallowly: the dictionary
becomes an association list looked up by exact string equality, `do_GET`
becomes a pure function from the request path to an HTTP response record,
and a second, stateful rendition `do_GET_run` threads an explicit server
state (table, default payload, log) to talk about determinism and about
the table being read-only.
-/

/-- A category payload: the record `\x7b"categories": [...]\x7d` of the source,
one field holding an ordered list of integer category codes. -/
structure CategoryResponse where
  categories : List Int
deriving DecidableEq, Repr

/-- The module-level constant dictionary `C` of category codes
(webserver.py lines 4-11), kept as an association list in source order. -/
def C : List (String × Int) :=
  [("SECURITY_RISKS", 32),
   ("CIPA", 34),
   ("VIOLENCE", 32),
   ("SECURITY_THREATS", 21),
   ("QUESTIONABLE_CONTENT", 17)]

/-- Python subscript `C[k]`: lookup in the constant dictionary.  Every key
used by the source is present, so the default branch is never taken. -/
def Cval (k : String) : Int := (List.lookup k C).getD 0

/-- The class attribute `URL_PATTERNS` (webserver.py lines 14-21): an
immutable mapping from exact path to payload, in source order. -/
def URL_PATTERNS : List (String × CategoryResponse) :=
  [("/categories/192.168.0.3",
    ⟨[Cval "SECURITY_RISKS", Cval "SECURITY_THREATS", Cval "CIPA"]⟩),
   ("/categories/192.168.0.191",
    ⟨[Cval "SECURITY_RISKS", Cval "SECURITY_THREATS", Cval "CIPA"]⟩),
   ("/categories/::1",
    ⟨[Cval "SECURITY_RISKS", Cval "SECURITY_THREATS", Cval "CIPA"]⟩)]

/-- The class attribute `DEFAULT_RESPONSE` (webserver.py line 24). -/
def DEFAULT_RESPONSE : CategoryResponse := ⟨[]⟩

/-- Serialization of an integer list, shared by `json.dumps` and Python
`repr`: elements separated by a comma and a space, inside brackets. -/
def jsonList : List Int → String
  | [] => "[]"
  | x :: xs =>
    "[" ++ toString x ++ String.join (List.map (fun y => ", " ++ toString y) xs) ++ "]"

/-- The body written by `json.dumps(response)` for a category payload:
`\x7b"categories": [...]\x7d` with default separators. -/
def jsonDumps (r : CategoryResponse) : String :=
  "\x7b\"categories\": " ++ jsonList r.categories ++ "\x7d"

/-- Python `repr` of a category payload dict, as interpolated into the log
f-string: `\x7b\x27categories\x27: [...]\x7d`. -/
def pyRepr (r : CategoryResponse) : String :=
  "\x7b\x27categories\x27: " ++ jsonList r.categories ++ "\x7d"

/-- An HTTP response as assembled by `do_GET`: the status code passed to
`send_response`, the headers passed to `send_header`, and the body written
to `wfile`. -/
structure HttpResponse where
  status : Nat
  headers : List (String × String)
  body : String
deriving DecidableEq, Repr

/-- The spec's operation `handle(path)`: the lookup
`self.URL_PATTERNS.get(self.path, self.DEFAULT_RESPONSE)` of
webserver.py line 34. -/
def handle (path : String) : CategoryResponse :=
  (List.lookup path URL_PATTERNS).getD DEFAULT_RESPONSE

/-- The `do_GET` method (webserver.py lines 26-40) as a pure function of
the request path: status 200, the two fixed headers in emission order, and
the JSON body of the matched or default payload. -/
def do_GET (path : String) : HttpResponse :=
  { status := 200
    headers := [("Content-Type", "application/json"),
                ("Access-Control-Allow-Origin", "*")]
    body := jsonDumps ((List.lookup path URL_PATTERNS).getD DEFAULT_RESPONSE) }

/-- The mutable-world view of the process: the route table and default
payload as the handler sees them, and the stdout log grown by `print`. -/
structure ServerState where
  urlPatterns : List (String × CategoryResponse)
  defaultResponse : CategoryResponse
  log : List String
deriving DecidableEq, Repr

/-- The state at process start: tables built once from the literals,
empty log. -/
def initState : ServerState :=
  { urlPatterns := URL_PATTERNS, defaultResponse := DEFAULT_RESPONSE, log := [] }

/-- The `do_GET` method acting on the explicit server state: it reads the
table and default, writes the response, and appends the log line
`Request: <path> -> Response: <response>`; nothing else changes. -/
def do_GET_run (st : ServerState) (path : String) : HttpResponse × ServerState :=
  let response := (List.lookup path st.urlPatterns).getD st.defaultResponse
  ({ status := 200
     headers := [("Content-Type", "application/json"),
                 ("Access-Control-Allow-Origin", "*")]
     body := jsonDumps response },
   { st with
     log := st.log ++ ["Request: " ++ path ++ " -> Response: " ++ pyRepr response] })

/-- A serving run: handle a list of GET requests in order, collecting the
responses and threading the state. -/
def runRequests (st : ServerState) : List String → List HttpResponse × ServerState
  | [] => ([], st)
  | p :: ps =>
    let rs := runRequests (do_GET_run st p).2 ps
    ((do_GET_run st p).1 :: rs.1, rs.2)

theorem do_GET_run_urlPatterns (st : ServerState) (p : String) :
    (do_GET_run st p).2.urlPatterns = st.urlPatterns := rfl

theorem do_GET_run_defaultResponse (st : ServerState) (p : String) :
    (do_GET_run st p).2.defaultResponse = st.defaultResponse := rfl

theorem runRequests_urlPatterns (st : ServerState) (ps : List String) :
    (runRequests st ps).2.urlPatterns = st.urlPatterns := by
  induction ps generalizing st with
  | nil => rfl
  | cons p ps ih => simpa [runRequests] using ih (do_GET_run st p).2

theorem runRequests_defaultResponse (st : ServerState) (ps : List String) :
    (runRequests st ps).2.defaultResponse = st.defaultResponse := by
  induction ps generalizing st with
  | nil => rfl
  | cons p ps ih => simpa [runRequests] using ih (do_GET_run st p).2

theorem do_GET_run_fst (st : ServerState) (p : String) :
    (do_GET_run st p).1 =
      { status := 200
        headers := [("Content-Type", "application/json"),
                    ("Access-Control-Allow-Origin", "*")]
        body := jsonDumps ((List.lookup p st.urlPatterns).getD st.defaultResponse) } := rfl

theorem lookup_eq_none_of_ne (p : String)
    (h1 : p ≠ "/categories/192.168.0.3")
    (h2 : p ≠ "/categories/192.168.0.191")
    (h3 : p ≠ "/categories/::1") :
    List.lookup p URL_PATTERNS = none := by
  have b1 : (p == "/categories/192.168.0.3") = false := beq_eq_false_iff_ne.mpr h1
  have b2 : (p == "/categories/192.168.0.191") = false := beq_eq_false_iff_ne.mpr h2
  have b3 : (p == "/categories/::1") = false := beq_eq_false_iff_ne.mpr h3
  simp [URL_PATTERNS, List.lookup, b1, b2, b3]

theorem lookup_eq_some_cases (p : String) (r : CategoryResponse)
    (h : List.lookup p URL_PATTERNS = some r) :
    (p = "/categories/192.168.0.3" ∨ p = "/categories/192.168.0.191" ∨
      p = "/categories/::1") ∧ r = ⟨[32, 21, 34]⟩ := by
  by_cases h1 : p = "/categories/192.168.0.3"
  · refine ⟨Or.inl h1, ?_⟩
    rw [h1] at h
    simpa [URL_PATTERNS, List.lookup, Cval, C] using h.symm
  · by_cases h2 : p = "/categories/192.168.0.191"
    · refine ⟨Or.inr (Or.inl h2), ?_⟩
      rw [h2] at h
      simpa [URL_PATTERNS, List.lookup, Cval, C] using h.symm
    · by_cases h3 : p = "/categories/::1"
      · refine ⟨Or.inr (Or.inr h3), ?_⟩
        rw [h3] at h
        simpa [URL_PATTERNS, List.lookup, Cval, C] using h.symm
      · rw [lookup_eq_none_of_ne p h1 h2 h3] at h
        exact absurd h (by simp)

/-- C1: the router's response is the table entry for the path when the
path is a key of URL_PATTERNS (exact string equality) and DEFAULT_RESPONSE
otherwise; being a pure function of the path, it is uniquely determined by
the path alone. -/
theorem handle_is_lookup_or_default (p : String) :
    (∀ r, List.lookup p URL_PATTERNS = some r → handle p = r) ∧
    (List.lookup p URL_PATTERNS = none → handle p = DEFAULT_RESPONSE) := by
  constructor
  · intro r h
    simp [handle, h]
  · intro h
    simp [handle, h]

/-- Witness for C1 at a matched and an unmatched concrete path. -/
theorem handle_is_lookup_or_default_witness :
    (List.lookup "/categories/::1" URL_PATTERNS = some ⟨[32, 21, 34]⟩ ∧
      handle "/categories/::1" = ⟨[32, 21, 34]⟩) ∧
    (List.lookup "/favicon.ico" URL_PATTERNS = none ∧
      handle "/favicon.ico" = DEFAULT_RESPONSE) :=
  ⟨⟨by decide, (handle_is_lookup_or_default "/categories/::1").1 ⟨[32, 21, 34]⟩
      (by decide)⟩,
   ⟨by decide, (handle_is_lookup_or_default "/favicon.ico").2 (by decide)⟩⟩

/-- C2: a GET on each of the three table paths returns status 200 with
body `\x7b"categories": [32, 21, 34]\x7d`, the codes in that order
(SECURITY_RISKS, SECURITY_THREATS, CIPA). -/
theorem table_paths_200_and_body :
    ((do_GET "/categories/192.168.0.3").status = 200 ∧
      (do_GET "/categories/192.168.0.3").body = "\x7b\"categories\": [32, 21, 34]\x7d") ∧
    ((do_GET "/categories/192.168.0.191").status = 200 ∧
      (do_GET "/categories/192.168.0.191").body = "\x7b\"categories\": [32, 21, 34]\x7d") ∧
    ((do_GET "/categories/::1").status = 200 ∧
      (do_GET "/categories/::1").body = "\x7b\"categories\": [32, 21, 34]\x7d") := by
  refine ⟨⟨rfl, ?_⟩, ⟨rfl, ?_⟩, ⟨rfl, ?_⟩⟩ <;> decide

/-- C3: a GET on any path that is not a key of URL_PATTERNS returns status
200 with body `\x7b"categories": []\x7d`. -/
theorem unmatched_paths_default_body (p : String)
    (h : List.lookup p URL_PATTERNS = none) :
    (do_GET p).status = 200 ∧ (do_GET p).body = "\x7b\"categories\": []\x7d" := by
  refine ⟨rfl, ?_⟩
  simp [do_GET, h, DEFAULT_RESPONSE, jsonDumps, jsonList]

/-- Witness for C3 at three concrete unmatched paths. -/
theorem unmatched_paths_default_body_witness :
    (List.lookup "/categories/10.0.0.1" URL_PATTERNS = none ∧
      (do_GET "/categories/10.0.0.1").status = 200 ∧
      (do_GET "/categories/10.0.0.1").body = "\x7b\"categories\": []\x7d") ∧
    (List.lookup "/" URL_PATTERNS = none ∧
      (do_GET "/").status = 200 ∧
      (do_GET "/").body = "\x7b\"categories\": []\x7d") ∧
    (List.lookup "/favicon.ico" URL_PATTERNS = none ∧
      (do_GET "/favicon.ico").status = 200 ∧
      (do_GET "/favicon.ico").body = "\x7b\"categories\": []\x7d") :=
  ⟨⟨by decide, unmatched_paths_default_body "/categories/10.0.0.1" (by decide)⟩,
   ⟨by decide, unmatched_paths_default_body "/" (by decide)⟩,
   ⟨by decide, unmatched_paths_default_body "/favicon.ico" (by decide)⟩⟩

/-- C6: the handle operation is total — for every path it returns a
well-formed CategoryResponse, which is either an entry of the table (paired
with that very path) or the default; there is no error branch. -/
theorem handle_total (p : String) :
    (p, handle p) ∈ URL_PATTERNS ∨ handle p = DEFAULT_RESPONSE := by
  cases h : List.lookup p URL_PATTERNS with
  | none =>
    right
    simp [handle, h]
  | some r =>
    left
    have hr : handle p = r := by simp [handle, h]
    rcases lookup_eq_some_cases p r h with ⟨hp, hv⟩
    rw [hr, hv]
    rcases hp with h1 | h2 | h3
    · rw [h1]; decide
    · rw [h2]; decide
    · rw [h3]; decide

/-- C10: the categories list of every response is empty or exactly
[32, 21, 34]; in particular the value of QUESTIONABLE_CONTENT (17) never
appears in any response body. -/
theorem categories_empty_or_fixed (p : String) :
    ((handle p).categories = [] ∨ (handle p).categories = [32, 21, 34]) ∧
    Cval "QUESTIONABLE_CONTENT" ∉ (handle p).categories := by
  cases h : List.lookup p URL_PATTERNS with
  | none =>
    have hd : handle p = DEFAULT_RESPONSE := by simp [handle, h]
    rw [hd]
    exact ⟨Or.inl rfl, by decide⟩
  | some r =>
    have hr : handle p = r := by simp [handle, h]
    have hv := (lookup_eq_some_cases p r h).2
    rw [hr, hv]
    exact ⟨Or.inr rfl, by decide⟩

/-- C4: every handled GET yields HTTP status 200, for every path, matched
or not; no path produces a non-200 status. -/
theorem do_GET_status_always_200 (p : String) : (do_GET p).status = 200 := rfl

/-- C8: every handled GET carries exactly the two contract headers, in
order: Content-Type: application/json and Access-Control-Allow-Origin: *,
unconditionally in the path. -/
theorem do_GET_headers_exact (p : String) :
    (do_GET p).headers =
      [("Content-Type", "application/json"),
       ("Access-Control-Allow-Origin", "*")] := rfl

theorem append_ne_self_of_ne_empty (a s : String) (hs : s ≠ "") : a ++ s ≠ a := by
  intro he
  apply hs
  have hd : a.data ++ s.data = a.data := by
    have h := congrArg String.data he
    rwa [String.data_append] at h
  have h0 : s.data.length = 0 := by
    have hl := congrArg List.length hd
    rw [List.length_append] at hl
    omega
  have hnil : s.data = [] := List.length_eq_zero.mp h0
  exact String.ext hnil

theorem append_ne_of_take_ne (a b s : String)
    (h : List.take a.data.length b.data ≠ a.data) : a ++ s ≠ b := by
  intro he
  apply h
  have hd : a.data ++ s.data = b.data := by
    have h := congrArg String.data he
    rwa [String.data_append] at h
  rw [← hd]
  exact List.take_left a.data s.data

/-- C5: matching is exact-string — for every table key k and every
non-empty suffix s (trailing slash, query string, anything), the path
k ++ s falls through to DEFAULT_RESPONSE, not the payload of k. -/
theorem exact_match_no_suffix (k s : String)
    (hk : k ∈ List.map Prod.fst URL_PATTERNS) (hs : s ≠ "") :
    handle (k ++ s) = DEFAULT_RESPONSE := by
  have hk3 : k = "/categories/192.168.0.3" ∨ k = "/categories/192.168.0.191" ∨
      k = "/categories/::1" := by
    simpa [URL_PATTERNS] using hk
  have hnone : List.lookup (k ++ s) URL_PATTERNS = none := by
    rcases hk3 with h | h | h
    · subst h
      exact lookup_eq_none_of_ne _ (append_ne_self_of_ne_empty _ s hs)
        (append_ne_of_take_ne _ _ s (by decide)) (append_ne_of_take_ne _ _ s (by decide))
    · subst h
      exact lookup_eq_none_of_ne _ (append_ne_of_take_ne _ _ s (by decide))
        (append_ne_self_of_ne_empty _ s hs) (append_ne_of_take_ne _ _ s (by decide))
    · subst h
      exact lookup_eq_none_of_ne _ (append_ne_of_take_ne _ _ s (by decide))
        (append_ne_of_take_ne _ _ s (by decide)) (append_ne_self_of_ne_empty _ s hs)
  simp [handle, hnone]

/-- Witness for C5: a trailing slash and a query string on a table key
both yield the default response. -/
theorem exact_match_no_suffix_witness :
    ("/categories/192.168.0.3" ∈ List.map Prod.fst URL_PATTERNS ∧
      ("/" : String) ≠ "" ∧
      handle ("/categories/192.168.0.3" ++ "/") = DEFAULT_RESPONSE) ∧
    ("/categories/192.168.0.3" ∈ List.map Prod.fst URL_PATTERNS ∧
      ("?x=1" : String) ≠ "" ∧
      handle ("/categories/192.168.0.3" ++ "?x=1") = DEFAULT_RESPONSE) :=
  ⟨⟨by decide, by decide,
    exact_match_no_suffix "/categories/192.168.0.3" "/" (by decide) (by decide)⟩,
   ⟨by decide, by decide,
    exact_match_no_suffix "/categories/192.168.0.3" "?x=1" (by decide) (by decide)⟩⟩

/-- C7: the handler is deterministic and drift-free — after any two
request histories, handling the same path produces byte-identical
responses (status, headers and body all equal). -/
theorem do_GET_deterministic (st : ServerState) (ps qs : List String) (p : String) :
    (do_GET_run (runRequests st ps).2 p).1 = (do_GET_run (runRequests st qs).2 p).1 := by
  rw [do_GET_run_fst, do_GET_run_fst, runRequests_urlPatterns, runRequests_urlPatterns,
    runRequests_defaultResponse, runRequests_defaultResponse]

/-- C9: handling requests leaves the route table and the default payload
exactly as they were at process start — after any run from the initial
state, both equal their initial values. -/
theorem state_read_only (ps : List String) :
    (runRequests initState ps).2.urlPatterns = URL_PATTERNS ∧
    (runRequests initState ps).2.defaultResponse = DEFAULT_RESPONSE :=
  ⟨runRequests_urlPatterns initState ps, runRequests_defaultResponse initState ps⟩
